import Mathlib

/-!
Verification of the `logs` package of stripe-cli (log tailing session).

The Go source (package `logs`, plus `pkg/websocket/request_log_messages.go`)
is shallowly embedded below.  Effects are made explicit:

* `Tailer.Run` is embedded as a pure function `Run` from the outcome of the
  external `stripeauth` `Authorize` call (supplied as a function argument,
  since the auth client is an external collaborator) and the `Config` to the
  ordered list of actions the main goroutine performs, together with the run
  outcome (`log.Fatalf` terminates the process, so the authorization-failure
  path yields `RunOutcome.terminated`; the normal path yields
  `RunOutcome.returned none`, i.e. `return nil`).
* `processRequestLogEvent` is embedded as a pure function from an
  environment (the external collaborators `json.Unmarshal` — which in Go
  fills the target struct with whatever fields decoded and returns an
  optional error — and `ansi.ColorizeJSON`), the `Config`, and the incoming
  message, to a `DispatchResult` recording the warnings and debug lines
  logged, the payload strings handed to the JSON decoder, and the lines
  printed to stdout.  The Go function returns no error and has no panic
  path, which the total, error-free return type reflects.
* `colorizeStatus` and the `fmt.Sprintf "%s [%d] %s %s %s"` rendering are
  embedded directly; the aurora color value is a `ColoredValue` record and
  its formatting is an SGR escape sequence around the decimal status.
-/

namespace StripeLogs

/-- Terminal colors used by `colorizeStatus` (via `aurora`). -/
inductive Color where
  | red
  | yellow
  | green
deriving DecidableEq, Repr

/-- An `aurora.Value`: a value to print together with its color and bold flag. -/
structure ColoredValue where
  color : Color
  bold : Bool
  value : Int
deriving DecidableEq, Repr

/-- Embeds `colorizeStatus` (part_000 lines 156-166): `status >= 500` is red
bold, otherwise `status >= 400` is yellow bold, otherwise green bold. -/
def colorizeStatus (status : Int) : ColoredValue :=
  if status ≥ 500 then
    ⟨Color.red, true, status⟩
  else if status ≥ 400 then
    ⟨Color.yellow, true, status⟩
  else
    ⟨Color.green, true, status⟩

/-- SGR color code of a color, as emitted by aurora. -/
def ansiCode : Color → String
  | Color.red => "31"
  | Color.yellow => "33"
  | Color.green => "32"

/-- Rendering of an aurora value under the `%d` verb: SGR color (plus `;1`
when bold) around the decimal value, then reset. -/
def renderColoredValue (cv : ColoredValue) : String :=
  "\x1b[" ++ ansiCode cv.color ++ (if cv.bold then ";1" else "") ++ "m"
    ++ toString cv.value ++ "\x1b[0m"

/-- Embeds `EventPayload` (part_000 lines 55-61); Go zero values are `""`
and `0`. -/
structure EventPayload where
  createdAt : String
  method : String
  requestID : String
  status : Int
  url : String
deriving DecidableEq, Repr

/-- Embeds the human-mode output line (part_000 line 152):
`fmt.Sprintf("%s [%d] %s %s %s", payload.CreatedAt, coloredStatus,
payload.Method, payload.URL, payload.RequestID)`. -/
def formatLine (payload : EventPayload) : String :=
  payload.createdAt ++ " [" ++ renderColoredValue (colorizeStatus payload.status)
    ++ "] " ++ payload.method ++ " " ++ payload.url ++ " " ++ payload.requestID

/-- Embeds `websocket.RequestLogEvent` (request_log_messages.go). -/
structure RequestLogEvent where
  eventPayload : String
  requestLogID : String
  typ : String
deriving DecidableEq, Repr

/-- Embeds the part of `websocket.IncomingMessage` the dispatcher consumes:
the optional `RequestLogEvent` variant (`nil` pointer becomes `none`). -/
structure IncomingMessage where
  requestLogEvent : Option RequestLogEvent
deriving DecidableEq, Repr

/-- Embeds `const outputFormatJSON = "json"` (part_000 line 20). -/
def outputFormatJSON : String := "json"

/-- Embeds `Config` (part_000 lines 23-42); the log sink is modelled by
recording logged lines in the results instead. -/
structure Config where
  apiBaseURL : String
  deviceName : String
  key : String
  noWSS : Bool
  outputFormat : String
  webSocketFeature : String
deriving DecidableEq, Repr

/-- External collaborators of the dispatcher: `json.Unmarshal` into an
`EventPayload` (returning the filled struct — zero values for fields that
did not decode — and an optional error), and `ansi.ColorizeJSON`. -/
structure Env where
  unmarshal : String → EventPayload × Option String
  colorizeJSONFn : String → String

/-- A line printed to stdout by the dispatcher (`fmt.Println`). -/
inductive Output where
  | line (s : String)
  | jsonDoc (s : String)
deriving DecidableEq, Repr

/-- Observable result of one dispatcher call: warning-level log lines,
debug-level log lines, the payload strings passed to `json.Unmarshal`,
and the stdout lines, each in order. -/
structure DispatchResult where
  warnings : List String
  debugs : List String
  decoded : List String
  output : List Output
deriving DecidableEq, Repr

/-- Embeds `Tailer.processRequestLogEvent` (part_000 lines 127-154). -/
def processRequestLogEvent (env : Env) (cfg : Config) (msg : IncomingMessage) :
    DispatchResult :=
  match msg.requestLogEvent with
  | none =>
      { warnings := ["WebSocket specified for request logs received non-request-logs event"]
        debugs := []
        decoded := []
        output := [] }
  | some requestLogEvent =>
      if cfg.outputFormat = outputFormatJSON then
        { warnings := []
          debugs := ["Processing request log event"]
          decoded := []
          output := [Output.jsonDoc (env.colorizeJSONFn requestLogEvent.eventPayload)] }
      else
        let decodeRes := env.unmarshal requestLogEvent.eventPayload
        { warnings :=
            match decodeRes.2 with
            | some e => ["Received malformed payload: " ++ e]
            | none => []
          debugs := ["Processing request log event"]
          decoded := [requestLogEvent.eventPayload]
          output := [Output.line (formatLine decodeRes.1)] }

/-- Embeds the `stripeauth` session descriptor used by `Run`. -/
structure Session where
  webSocketURL : String
  webSocketID : String
  webSocketAuthorizedFeature : String
  reconnectDelay : Int
deriving DecidableEq, Repr

/-- One action of the main goroutine of `Tailer.Run`, in program order.
`deliverEvent` is the vocabulary for an inbound event being delivered to the
dispatcher; deliveries happen on the websocket client's goroutine, so `Run`
itself never emits one — in an execution in which the server sends no
events, the complete observable trace is exactly `Run`'s trace. -/
inductive Action where
  | startSpinner (msg : String)
  | notifySignals
  | authorizeCall (deviceName feature : String)
  | fatalLog (msg : String)
  | constructTransport (url id feature : String) (noWSS : Bool) (reconnectDelaySeconds : Int)
  | startTransportGoroutine
  | stopSpinner (msg : String)
  | waitInterrupt
  | stopTransport
  | deliverEvent
deriving DecidableEq, Repr

/-- Outcome of `Run`: either the process was terminated (`log.Fatalf`), or
the function returned with the given `error` value (`none` is Go `nil`). -/
inductive RunOutcome where
  | terminated
  | returned (err : Option String)
deriving DecidableEq, Repr

/-- Embeds `Tailer.Run` (part_000 lines 80-125) as the ordered trace of the
main goroutine together with the outcome.  `authorize` stands for the
external `stripeauth.Client.Authorize`; the blocking `select` is modelled as
`waitInterrupt` satisfied by the first interrupt/termination signal.  On the
success path `webSocketClient` is non-nil, so the `if` guard around `Stop()`
passes and `stopTransport` is performed. -/
def Run (authorize : String → String → Except String Session) (cfg : Config) :
    List Action × RunOutcome :=
  let pre := [Action.startSpinner "Getting ready...",
              Action.notifySignals,
              Action.authorizeCall cfg.deviceName cfg.webSocketFeature]
  match authorize cfg.deviceName cfg.webSocketFeature with
  | Except.error e =>
      (pre ++ [Action.fatalLog ("Error while authenticating with Stripe: " ++ e)],
       RunOutcome.terminated)
  | Except.ok session =>
      (pre ++ [Action.constructTransport session.webSocketURL session.webSocketID
                 session.webSocketAuthorizedFeature cfg.noWSS session.reconnectDelay,
               Action.startTransportGoroutine,
               Action.stopSpinner "Ready! You're now waiting to receive API request logs (^C to quit)",
               Action.waitInterrupt,
               Action.stopTransport],
       RunOutcome.returned none)

/-- Number of `stopTransport` actions in a trace. -/
def countStops : List Action → Nat
  | [] => 0
  | Action.stopTransport :: rest => countStops rest + 1
  | _ :: rest => countStops rest

/-- Whether an action constructs the websocket transport. -/
def isConstructTransport : Action → Bool
  | Action.constructTransport _ _ _ _ _ => true
  | _ => false

/-- Whether an action starts the transport goroutine. -/
def isStartTransport : Action → Bool
  | Action.startTransportGoroutine => true
  | _ => false

/-! Concrete fixtures used to exercise the theorems on closed inputs. -/

/-- A concrete configuration with the default (empty) output format. -/
def cfg0 : Config :=
  { apiBaseURL := "https://api.stripe.com"
    deviceName := "dev-box"
    key := "sk_test_123"
    noWSS := false
    outputFormat := ""
    webSocketFeature := "request_logs" }

/-- `cfg0` with output format exactly `json`. -/
def cfgJSONMode : Config := { cfg0 with outputFormat := "json" }

/-- `cfg0` with output format `JSON` (wrong case). -/
def cfgUpper : Config := { cfg0 with outputFormat := "JSON" }

/-- A concrete session descriptor. -/
def session0 : Session :=
  { webSocketURL := "wss://example.test/subscribe"
    webSocketID := "ws-id-1"
    webSocketAuthorizedFeature := "request_logs"
    reconnectDelay := 3 }

/-- An authorizer that always succeeds with `session0`. -/
def authOk : String → String → Except String Session :=
  fun _ _ => Except.ok session0

/-- An authorizer that always fails. -/
def authErr : String → String → Except String Session :=
  fun _ _ => Except.error "connection refused"

/-- A concrete well-formed decoded payload. -/
def payloadGood : EventPayload :=
  { createdAt := "2020-01-01T00:00:00Z"
    method := "GET"
    requestID := "req_123"
    status := 200
    url := "/v1/charges" }

/-- The Go zero value of `EventPayload`. -/
def payloadZero : EventPayload :=
  { createdAt := "", method := "", requestID := "", status := 0, url := "" }

/-- A concrete JSON-decode collaborator: `goodpayload` decodes to
`payloadGood`; anything else fails, leaving the struct at zero values. -/
def envToy : Env :=
  { unmarshal := fun s =>
      if s = "goodpayload" then (payloadGood, none)
      else (payloadZero, some "invalid character")
    colorizeJSONFn := fun s => "colored:" ++ s }

/-- A request-log event whose payload decodes under `envToy`. -/
def rleGood : RequestLogEvent :=
  { eventPayload := "goodpayload", requestLogID := "resp_1", typ := "request_log_event" }

/-- A request-log event whose payload fails to decode under `envToy`. -/
def rleBad : RequestLogEvent :=
  { eventPayload := "badpayload", requestLogID := "resp_2", typ := "request_log_event" }

/-- Message carrying `rleGood`. -/
def msgGood : IncomingMessage := { requestLogEvent := some rleGood }

/-- Message carrying `rleBad`. -/
def msgBad : IncomingMessage := { requestLogEvent := some rleBad }

/-- C1: when authorization succeeds and an interrupt later arrives,
`Tailer.Run` performs, in this order: the getting-ready spinner, signal
registration, the `Authorize` call, transport construction from the session
descriptor, the goroutine start, replacement of the spinner by the ready
message, the blocking wait, and a single `Stop()` of the transport, then
returns `nil`; `stopTransport` occurs exactly once in the trace. -/
theorem run_success_sequence (authorize : String → String → Except String Session)
    (cfg : Config) (s : Session)
    (h : authorize cfg.deviceName cfg.webSocketFeature = Except.ok s) :
    Run authorize cfg =
      ([Action.startSpinner "Getting ready...",
        Action.notifySignals,
        Action.authorizeCall cfg.deviceName cfg.webSocketFeature,
        Action.constructTransport s.webSocketURL s.webSocketID
          s.webSocketAuthorizedFeature cfg.noWSS s.reconnectDelay,
        Action.startTransportGoroutine,
        Action.stopSpinner "Ready! You're now waiting to receive API request logs (^C to quit)",
        Action.waitInterrupt,
        Action.stopTransport],
       RunOutcome.returned none)
    ∧ countStops (Run authorize cfg).1 = 1 := by
  unfold Run
  rw [h]
  simp [countStops]

/-- Closed witness for `run_success_sequence` on `authOk` and `cfg0`. -/
theorem run_success_sequence_witness :
    Run authOk cfg0 =
      ([Action.startSpinner "Getting ready...",
        Action.notifySignals,
        Action.authorizeCall cfg0.deviceName cfg0.webSocketFeature,
        Action.constructTransport session0.webSocketURL session0.webSocketID
          session0.webSocketAuthorizedFeature cfg0.noWSS session0.reconnectDelay,
        Action.startTransportGoroutine,
        Action.stopSpinner "Ready! You're now waiting to receive API request logs (^C to quit)",
        Action.waitInterrupt,
        Action.stopTransport],
       RunOutcome.returned none)
    ∧ countStops (Run authOk cfg0).1 = 1 :=
  run_success_sequence authOk cfg0 session0 rfl

/-- C2: when `Authorize` fails, `Run`'s trace is the spinner, the signal
registration, the single `Authorize` call and the fatal diagnostic — the
process terminates (non-zero, via `log.Fatalf`) and the trace contains no
transport construction and no goroutine start. -/
theorem run_auth_failure (authorize : String → String → Except String Session)
    (cfg : Config) (e : String)
    (h : authorize cfg.deviceName cfg.webSocketFeature = Except.error e) :
    Run authorize cfg =
      ([Action.startSpinner "Getting ready...",
        Action.notifySignals,
        Action.authorizeCall cfg.deviceName cfg.webSocketFeature,
        Action.fatalLog ("Error while authenticating with Stripe: " ++ e)],
       RunOutcome.terminated)
    ∧ (Run authorize cfg).1.all
        (fun a => !(isConstructTransport a || isStartTransport a)) = true := by
  unfold Run
  rw [h]
  simp [isConstructTransport, isStartTransport]

/-- Closed witness for `run_auth_failure` on `authErr` and `cfg0`. -/
theorem run_auth_failure_witness :
    Run authErr cfg0 =
      ([Action.startSpinner "Getting ready...",
        Action.notifySignals,
        Action.authorizeCall cfg0.deviceName cfg0.webSocketFeature,
        Action.fatalLog ("Error while authenticating with Stripe: " ++ "connection refused")],
       RunOutcome.terminated)
    ∧ (Run authErr cfg0).1.all
        (fun a => !(isConstructTransport a || isStartTransport a)) = true :=
  run_auth_failure authErr cfg0 "connection refused" rfl

/-- C9: `Run` never returns a non-nil error: its outcome is terminated by
`log.Fatalf` exactly when `Authorize` fails, and is `return nil` otherwise —
`RunOutcome.returned (some e)` is unreachable for every authorizer and
configuration. -/
theorem run_never_returns_error (authorize : String → String → Except String Session)
    (cfg : Config) :
    (Run authorize cfg).2 =
      (match authorize cfg.deviceName cfg.webSocketFeature with
       | Except.error _ => RunOutcome.terminated
       | Except.ok _ => RunOutcome.returned none) := by
  unfold Run
  cases authorize cfg.deviceName cfg.webSocketFeature <;> simp

/-- C3: in human mode (output format other than `json`), each request-log
event yields exactly one stdout line `<created-at> [<colorized status>]
<method> <URL> <request-id>` built from the decoded payload, and the status
color is a pure function of the integer status: at least 500 is red bold,
400 to 499 is yellow bold, and anything below 400 (0 and negatives
included) is green bold. -/
theorem human_mode_single_line (env : Env) (cfg : Config) (msg : IncomingMessage)
    (rle : RequestLogEvent)
    (hfmt : cfg.outputFormat ≠ outputFormatJSON)
    (hmsg : msg.requestLogEvent = some rle) :
    (processRequestLogEvent env cfg msg).output =
      [Output.line ((env.unmarshal rle.eventPayload).1.createdAt ++ " ["
        ++ renderColoredValue (colorizeStatus (env.unmarshal rle.eventPayload).1.status)
        ++ "] " ++ (env.unmarshal rle.eventPayload).1.method
        ++ " " ++ (env.unmarshal rle.eventPayload).1.url
        ++ " " ++ (env.unmarshal rle.eventPayload).1.requestID)]
    ∧ ((500 ≤ (env.unmarshal rle.eventPayload).1.status
          ∧ colorizeStatus (env.unmarshal rle.eventPayload).1.status
            = ⟨Color.red, true, (env.unmarshal rle.eventPayload).1.status⟩)
       ∨ (400 ≤ (env.unmarshal rle.eventPayload).1.status
          ∧ (env.unmarshal rle.eventPayload).1.status ≤ 499
          ∧ colorizeStatus (env.unmarshal rle.eventPayload).1.status
            = ⟨Color.yellow, true, (env.unmarshal rle.eventPayload).1.status⟩)
       ∨ ((env.unmarshal rle.eventPayload).1.status < 400
          ∧ colorizeStatus (env.unmarshal rle.eventPayload).1.status
            = ⟨Color.green, true, (env.unmarshal rle.eventPayload).1.status⟩)) := by
  constructor
  · simp [processRequestLogEvent, hmsg, hfmt, formatLine]
  · generalize (env.unmarshal rle.eventPayload).1.status = st
    unfold colorizeStatus
    by_cases h5 : st ≥ 500
    · left
      rw [if_pos h5]
      exact ⟨h5, rfl⟩
    · by_cases h4 : st ≥ 400
      · right; left
        rw [if_neg h5, if_pos h4]
        exact ⟨h4, by omega, rfl⟩
      · right; right
        rw [if_neg h5, if_neg h4]
        exact ⟨by omega, rfl⟩

/-- Closed witness for `human_mode_single_line`: under `envToy`, the
well-formed event renders its decoded fields with a green bold 200. -/
theorem human_mode_single_line_witness :
    (processRequestLogEvent envToy cfg0 msgGood).output =
      [Output.line ((envToy.unmarshal rleGood.eventPayload).1.createdAt ++ " ["
        ++ renderColoredValue (colorizeStatus (envToy.unmarshal rleGood.eventPayload).1.status)
        ++ "] " ++ (envToy.unmarshal rleGood.eventPayload).1.method
        ++ " " ++ (envToy.unmarshal rleGood.eventPayload).1.url
        ++ " " ++ (envToy.unmarshal rleGood.eventPayload).1.requestID)]
    ∧ ((500 ≤ (envToy.unmarshal rleGood.eventPayload).1.status
          ∧ colorizeStatus (envToy.unmarshal rleGood.eventPayload).1.status
            = ⟨Color.red, true, (envToy.unmarshal rleGood.eventPayload).1.status⟩)
       ∨ (400 ≤ (envToy.unmarshal rleGood.eventPayload).1.status
          ∧ (envToy.unmarshal rleGood.eventPayload).1.status ≤ 499
          ∧ colorizeStatus (envToy.unmarshal rleGood.eventPayload).1.status
            = ⟨Color.yellow, true, (envToy.unmarshal rleGood.eventPayload).1.status⟩)
       ∨ ((envToy.unmarshal rleGood.eventPayload).1.status < 400
          ∧ colorizeStatus (envToy.unmarshal rleGood.eventPayload).1.status
            = ⟨Color.green, true, (envToy.unmarshal rleGood.eventPayload).1.status⟩)) :=
  human_mode_single_line envToy cfg0 msgGood rleGood (by decide) rfl

/-- C4 counterexample: the claimed mapping fails at 301 — the code colors
301 green (only statuses at least 400 get yellow), not yellow. -/
theorem status_mapping_cex :
    ¬ ((colorizeStatus 200).color = Color.green
       ∧ (colorizeStatus 404).color = Color.yellow
       ∧ (colorizeStatus 500).color = Color.red
       ∧ (colorizeStatus 503).color = Color.red
       ∧ (colorizeStatus 301).color = Color.yellow
       ∧ (colorizeStatus 999).color = Color.red) := by decide

/-- C4 amended: the status color mapping, as a pure function of the integer
status, yields 200 green, 404 yellow, 500 red, 503 red, 301 green and
999 red. -/
theorem status_mapping_amended :
    (colorizeStatus 200).color = Color.green
    ∧ (colorizeStatus 404).color = Color.yellow
    ∧ (colorizeStatus 500).color = Color.red
    ∧ (colorizeStatus 503).color = Color.red
    ∧ (colorizeStatus 301).color = Color.green
    ∧ (colorizeStatus 999).color = Color.red := by decide

/-- C5: in human mode a payload that fails to decode logs exactly one
malformed-payload warning and still prints the single line built from
whatever fields decoded; the dispatcher returns normally (no error, by its
total return type), and a subsequent well-formed event is rendered
correctly. -/
theorem malformed_payload_recovers (env : Env) (cfg : Config)
    (msg1 msg2 : IncomingMessage) (rle1 rle2 : RequestLogEvent)
    (p1 p2 : EventPayload) (e : String)
    (hfmt : cfg.outputFormat ≠ outputFormatJSON)
    (h1 : msg1.requestLogEvent = some rle1)
    (hu1 : env.unmarshal rle1.eventPayload = (p1, some e))
    (h2 : msg2.requestLogEvent = some rle2)
    (hu2 : env.unmarshal rle2.eventPayload = (p2, none)) :
    processRequestLogEvent env cfg msg1 =
      { warnings := ["Received malformed payload: " ++ e]
        debugs := ["Processing request log event"]
        decoded := [rle1.eventPayload]
        output := [Output.line (formatLine p1)] }
    ∧ processRequestLogEvent env cfg msg2 =
      { warnings := []
        debugs := ["Processing request log event"]
        decoded := [rle2.eventPayload]
        output := [Output.line (formatLine p2)] } := by
  constructor
  · simp [processRequestLogEvent, h1, hfmt, hu1]
  · simp [processRequestLogEvent, h2, hfmt, hu2]

/-- Closed witness for `malformed_payload_recovers`: under `envToy`, the
malformed event then the well-formed one. -/
theorem malformed_payload_recovers_witness :
    processRequestLogEvent envToy cfg0 msgBad =
      { warnings := ["Received malformed payload: " ++ "invalid character"]
        debugs := ["Processing request log event"]
        decoded := [rleBad.eventPayload]
        output := [Output.line (formatLine payloadZero)] }
    ∧ processRequestLogEvent envToy cfg0 msgGood =
      { warnings := []
        debugs := ["Processing request log event"]
        decoded := [rleGood.eventPayload]
        output := [Output.line (formatLine payloadGood)] } :=
  malformed_payload_recovers envToy cfg0 msgBad msgGood rleBad rleGood
    payloadZero payloadGood "invalid character" (by decide) rfl rfl rfl rfl

/-- C6: a message without the `RequestLogEvent` variant produces exactly one
warning log line and nothing else — no stdout output, no decode attempt,
and no error (the dispatcher returns normally), for every environment and
configuration. -/
theorem non_request_log_event_discarded (env : Env) (cfg : Config) :
    processRequestLogEvent env cfg { requestLogEvent := none } =
      { warnings := ["WebSocket specified for request logs received non-request-logs event"]
        debugs := []
        decoded := []
        output := [] } := rfl

/-- C7: in `json` output mode the dispatcher prints the colorized raw
payload string and returns; the decode trace is empty — `json.Unmarshal`
is never invoked on the payload. -/
theorem json_mode_no_decode (env : Env) (cfg : Config) (msg : IncomingMessage)
    (rle : RequestLogEvent)
    (hfmt : cfg.outputFormat = outputFormatJSON)
    (hmsg : msg.requestLogEvent = some rle) :
    processRequestLogEvent env cfg msg =
      { warnings := []
        debugs := ["Processing request log event"]
        decoded := []
        output := [Output.jsonDoc (env.colorizeJSONFn rle.eventPayload)] } := by
  simp [processRequestLogEvent, hmsg, hfmt]

/-- Closed witness for `json_mode_no_decode` on `cfgJSONMode`. -/
theorem json_mode_no_decode_witness :
    processRequestLogEvent envToy cfgJSONMode msgGood =
      { warnings := []
        debugs := ["Processing request log event"]
        decoded := []
        output := [Output.jsonDoc (envToy.colorizeJSONFn rleGood.eventPayload)] } :=
  json_mode_no_decode envToy cfgJSONMode msgGood rleGood rfl rfl

/-- C8 counterexample: the ready message is written without waiting for any
event — in a run in which the transport delivers no events at all (the main
goroutine's trace is then the complete observable trace), the `stopSpinner`
ready message occurs while no `deliverEvent` occurs, so it is not the first
event's arrival that replaces the spinner. -/
theorem ready_before_first_event_cex :
    Action.stopSpinner "Ready! You're now waiting to receive API request logs (^C to quit)"
      ∈ (Run authOk cfg0).1
    ∧ Action.deliverEvent ∉ (Run authOk cfg0).1 := by decide

/-- C8 amended: the spinner is replaced by the ready message immediately
after the transport goroutine is started and before the interrupt wait —
independent of event delivery, which never appears in `Run`'s own trace. -/
theorem ready_after_transport_start (authorize : String → String → Except String Session)
    (cfg : Config) (s : Session)
    (h : authorize cfg.deviceName cfg.webSocketFeature = Except.ok s) :
    ((Run authorize cfg).1)[4]? = some Action.startTransportGoroutine
    ∧ ((Run authorize cfg).1)[5]?
      = some (Action.stopSpinner "Ready! You're now waiting to receive API request logs (^C to quit)")
    ∧ ((Run authorize cfg).1)[6]? = some Action.waitInterrupt
    ∧ Action.deliverEvent ∉ (Run authorize cfg).1 := by
  unfold Run
  rw [h]
  refine ⟨rfl, rfl, rfl, ?_⟩
  intro hmem
  simp at hmem

/-- Closed witness for `ready_after_transport_start` on `authOk`, `cfg0`. -/
theorem ready_after_transport_start_witness :
    ((Run authOk cfg0).1)[4]? = some Action.startTransportGoroutine
    ∧ ((Run authOk cfg0).1)[5]?
      = some (Action.stopSpinner "Ready! You're now waiting to receive API request logs (^C to quit)")
    ∧ ((Run authOk cfg0).1)[6]? = some Action.waitInterrupt
    ∧ Action.deliverEvent ∉ (Run authOk cfg0).1 :=
  ready_after_transport_start authOk cfg0 session0 rfl

/-- C10: the JSON rendering path is selected exactly when the configured
output format equals the string `json`; every other string — empty, `JSON`,
`human`, anything — takes the human-mode path, with no validation and no
error. -/
theorem output_mode_selection (env : Env) (cfg : Config) (msg : IncomingMessage)
    (rle : RequestLogEvent)
    (hmsg : msg.requestLogEvent = some rle) :
    processRequestLogEvent env cfg msg =
      (if cfg.outputFormat = outputFormatJSON then
        { warnings := []
          debugs := ["Processing request log event"]
          decoded := []
          output := [Output.jsonDoc (env.colorizeJSONFn rle.eventPayload)] }
      else
        { warnings :=
            match (env.unmarshal rle.eventPayload).2 with
            | some e => ["Received malformed payload: " ++ e]
            | none => []
          debugs := ["Processing request log event"]
          decoded := [rle.eventPayload]
          output := [Output.line (formatLine (env.unmarshal rle.eventPayload).1)] }) := by
  by_cases hfmt : cfg.outputFormat = outputFormatJSON
  · simp [processRequestLogEvent, hmsg, hfmt]
  · simp [processRequestLogEvent, hmsg, hfmt]

/-- Closed witness for `output_mode_selection`: the wrong-case format
`JSON` takes the human path. -/
theorem output_mode_selection_witness :
    processRequestLogEvent envToy cfgUpper msgGood =
      (if cfgUpper.outputFormat = outputFormatJSON then
        { warnings := []
          debugs := ["Processing request log event"]
          decoded := []
          output := [Output.jsonDoc (envToy.colorizeJSONFn rleGood.eventPayload)] }
      else
        { warnings :=
            match (envToy.unmarshal rleGood.eventPayload).2 with
            | some e => ["Received malformed payload: " ++ e]
            | none => []
          debugs := ["Processing request log event"]
          decoded := [rleGood.eventPayload]
          output := [Output.line (formatLine (envToy.unmarshal rleGood.eventPayload).1)] }) :=
  output_mode_selection envToy cfgUpper msgGood rleGood rfl

end StripeLogs
